import Mathlib

/-!
Shallow embedding of `src/pal/socket_async.c` (azure-c-shared-utility PAL
socket wrapper).  OS syscalls (`socket`, `setsockopt`, `bind`, `connect`,
`select`, `send`, `recv`, `getaddrinfo`, `getsockopt SO_ERROR`) are modelled
by oracle records supplying their return values; each embedded operation
additionally records the trace of calls it performs and the values it writes
through its out-pointers, so that resource-handling and frame properties can
be stated.
-/

namespace SocketAsync

/-- Modelled from the spec: `SOCKET_ASYNC_INVALID_SOCKET`, the invalid-handle
sentinel declared in `socket_async.h` (header not under `src/`); the spec
calls it the "invalid-handle sentinel" denoting "no socket". -/
def SOCKET_ASYNC_INVALID_SOCKET : Int := -1

/-- Modelled from the spec: the `__FAILURE__` macro (not under `src/`); the
spec describes it as "a distinguished non-zero failure result code". -/
def FAILURE : Int := 1

/-- `EINPROGRESS` errno constant (Linux/lwIP value). -/
def EINPROGRESS : Int := 115

/-- `EAGAIN` errno constant (Linux/lwIP value). -/
def EAGAIN : Int := 11

/-- `EWOULDBLOCK` errno constant (equal to `EAGAIN` on Linux/lwIP). -/
def EWOULDBLOCK : Int := 11

/-- `AF_INET` address-family constant. -/
def AF_INET : Int := 2

/-- The caller-owned options record `SOCKET_ASYNC_OPTIONS`
(`keep_alive < 0` means "use system defaults"). -/
structure SOCKET_ASYNC_OPTIONS where
  keep_alive : Int
  keep_idle : Int
  keep_interval : Int
  keep_count : Int
deriving DecidableEq, Repr

/-- Identifies one `setsockopt` invocation made by `socket_async_create`:
which option it sets (and, for `SO_KEEPALIVE`, to which value). -/
inductive SockOptKey
  | soKeepAliveOn
  | tcpKeepIdle
  | tcpKeepIntvl
  | tcpKeepCnt
  | soKeepAliveOff
deriving DecidableEq, Repr

/-- Observable OS calls made by `socket_async_create` after the descriptor
has been allocated (the embedding records them in order). -/
inductive Event
  | setsockoptCall (k : SockOptKey)
  | fcntlNonblock
  | bindCall
  | connectCall
  | closeCall
deriving DecidableEq, Repr

/-- Oracle for the OS calls issued by `socket_async_create`:
`socket_ret` is the descriptor returned by `socket()`, `setsockopt_ret`
gives the return value of each `setsockopt` variant, `bind_ret` and
`connect_ret` the results of `bind`/`connect`, and `sock_errno` the value
`get_socket_errno` reads via `getsockopt SO_ERROR`. -/
structure OSOracle where
  socket_ret : Int
  setsockopt_ret : SockOptKey → Int
  bind_ret : Int
  connect_ret : Int
  sock_errno : Int

/-- Result of the embedded `socket_async_create`: the returned handle,
the ordered trace of OS calls performed, and the options record as it
stands when the function returns (the source only ever reads it). -/
structure CreateOut where
  result : Int
  trace : List Event
  optionsOut : Option SOCKET_ASYNC_OPTIONS

/-- The option-setting phase of `socket_async_create`
(`src/pal/socket_async.c` lines 109-146): computes `setopt_ok` and the
sequence of `setsockopt` calls made.  The C chain
`setopt_ok = setopt_ok && 0 == setsockopt(...)` short-circuits, so after
the first failing call no further `setsockopt` is issued. -/
def setoptPhase (o : OSOracle) (is_UDP : Bool)
    (options : Option SOCKET_ASYNC_OPTIONS) : Bool × List Event :=
  if is_UDP then
    (true, [])
  else
    match options with
    | some opts =>
      if opts.keep_alive ≥ 0 then
        if o.setsockopt_ret .soKeepAliveOn ≠ 0 then
          (false, [.setsockoptCall .soKeepAliveOn])
        else if o.setsockopt_ret .tcpKeepIdle ≠ 0 then
          (false, [.setsockoptCall .soKeepAliveOn, .setsockoptCall .tcpKeepIdle])
        else if o.setsockopt_ret .tcpKeepIntvl ≠ 0 then
          (false, [.setsockoptCall .soKeepAliveOn, .setsockoptCall .tcpKeepIdle,
                   .setsockoptCall .tcpKeepIntvl])
        else if o.setsockopt_ret .tcpKeepCnt ≠ 0 then
          (false, [.setsockoptCall .soKeepAliveOn, .setsockoptCall .tcpKeepIdle,
                   .setsockoptCall .tcpKeepIntvl, .setsockoptCall .tcpKeepCnt])
        else
          (true, [.setsockoptCall .soKeepAliveOn, .setsockoptCall .tcpKeepIdle,
                  .setsockoptCall .tcpKeepIntvl, .setsockoptCall .tcpKeepCnt])
      else
        -- keep_alive < 0 means use system defaults, so do nothing
        (true, [])
    | none =>
      (o.setsockopt_ret .soKeepAliveOff = 0, [.setsockoptCall .soKeepAliveOff])

/-- Embedding of `socket_async_create` (`src/pal/socket_async.c` lines
92-229).  `serverIPv4` and `port` only parameterise the address handed to
`connect` and do not influence the control flow modelled here. -/
def socket_async_create (o : OSOracle) (serverIPv4 : Nat) (port : Nat)
    (is_UDP : Bool) (options : Option SOCKET_ASYNC_OPTIONS) : CreateOut :=
  let _ := serverIPv4
  let _ := port
  let sock := o.socket_ret
  if sock < 0 then
    { result := SOCKET_ASYNC_INVALID_SOCKET, trace := [], optionsOut := options }
  else
    let phase := setoptPhase o is_UDP options
    if phase.1 = false then
      { result := SOCKET_ASYNC_INVALID_SOCKET, trace := phase.2,
        optionsOut := options }
    else
      let evs := phase.2 ++ [Event.fcntlNonblock, Event.bindCall]
      if o.bind_ret ≠ 0 then
        { result := SOCKET_ASYNC_INVALID_SOCKET, trace := evs,
          optionsOut := options }
      else
        let evs := evs ++ [Event.connectCall]
        if o.connect_ret = -1 then
          if o.sock_errno ≠ EINPROGRESS ∧ o.sock_errno ≠ 0 then
            { result := SOCKET_ASYNC_INVALID_SOCKET, trace := evs,
              optionsOut := options }
          else
            { result := sock, trace := evs, optionsOut := options }
        else
          { result := sock, trace := evs, optionsOut := options }

/-- The `setsockopt` calls occurring in a trace, in order. -/
def setsockoptKeys (tr : List Event) : List SockOptKey :=
  tr.filterMap fun e =>
    match e with
    | .setsockoptCall k => some k
    | _ => none

/-- One node of the `addrinfo` linked list returned by `getaddrinfo`:
its `ai_family` and (when IPv4) the `sin_addr.s_addr` value that the
`EXTRACT_IPV4` macro reads. -/
structure Addrinfo where
  ai_family : Int
  sin_addr : Nat
deriving DecidableEq, Repr

/-- Embedding of `socket_async_get_ipv4` (`src/pal/socket_async.c` lines
40-90).  `getaddrinfoResult` is `none` when `getaddrinfo` returns nonzero,
otherwise the linked list it produced.  The C loop walks the whole list:
the `break` inside the `switch` leaves the `switch`, not the `for`, so a
later `AF_INET` node overwrites `result`. -/
def socket_async_get_ipv4 (getaddrinfoResult : Option (List Addrinfo)) : Nat :=
  match getaddrinfoResult with
  | none => 0
  | some addrInfo =>
    addrInfo.foldl
      (fun result ptr =>
        if ptr.ai_family = AF_INET then ptr.sin_addr else result) 0

/-- The `struct timeval` handed to `select`. -/
structure Timeval where
  tv_sec : Int
  tv_usec : Int
deriving DecidableEq, Repr

/-- Oracle for the `select` call in `socket_async_is_create_complete`:
its return value and, when it reports, whether `FD_ISSET` holds for the
socket in the error set and in the write set afterwards. -/
structure SelectOracle where
  select_ret : Int
  errset : Bool
  writeset : Bool

/-- Result of the embedded `socket_async_is_create_complete`: the returned
code, the value written through `is_complete` (`none` if the pointer is
never written), and the `timeval` passed to `select` (`none` if `select`
is never reached). -/
structure PollOut where
  result : Int
  is_complete : Option Bool
  tvUsed : Option Timeval
deriving DecidableEq, Repr

/-- Embedding of `socket_async_is_create_complete`
(`src/pal/socket_async.c` lines 231-287).  `tvGarbage` is the value of the
uninitialized stack variable `tv`; the source then executes
`tv.tv_sec = 0; tv.tv_sec = 0;` (lines 253-254), assigning `tv_sec` twice
and never touching `tv_usec`. -/
def socket_async_is_create_complete (sel : SelectOracle) (tvGarbage : Timeval)
    (is_complete_is_null : Bool) : PollOut :=
  if is_complete_is_null then
    { result := FAILURE, is_complete := none, tvUsed := none }
  else
    let tv := tvGarbage
    let tv := { tv with tv_sec := 0 }
    let tv := { tv with tv_sec := 0 }
    if sel.select_ret < 0 then
      { result := FAILURE, is_complete := none, tvUsed := some tv }
    else if sel.errset then
      { result := FAILURE, is_complete := none, tvUsed := some tv }
    else if sel.writeset then
      { result := 0, is_complete := some true, tvUsed := some tv }
    else
      { result := 0, is_complete := some false, tvUsed := some tv }

/-- Oracle for one `send`/`recv` call: its return value and the `errno`
observed when it returns negative. -/
structure XferOracle where
  xfer_ret : Int
  errno : Int

/-- Result of the embedded `socket_async_send`/`socket_async_receive`:
the returned code, the value written through the count out-pointer
(`none` if never written), and whether the underlying `send`/`recv`
primitive was invoked at all. -/
structure XferOut where
  result : Int
  count : Option Nat
  attempted : Bool
deriving DecidableEq, Repr

/-- Embedding of `socket_async_send` (`src/pal/socket_async.c` lines
289-338). -/
def socket_async_send (os : XferOracle) (buffer_is_null : Bool) (size : Nat)
    (sent_count_is_null : Bool) : XferOut :=
  if buffer_is_null || sent_count_is_null then
    { result := FAILURE, count := none, attempted := false }
  else if size = 0 then
    { result := 0, count := some 0, attempted := false }
  else if os.xfer_ret < 0 then
    if os.errno = EAGAIN ∨ os.errno = EWOULDBLOCK then
      { result := 0, count := some 0, attempted := true }
    else
      { result := FAILURE, count := none, attempted := true }
  else
    { result := 0, count := some os.xfer_ret.toNat, attempted := true }

/-- Embedding of `socket_async_receive` (`src/pal/socket_async.c` lines
340-383).  Unlike `socket_async_send`, `size == 0` is rejected together
with the null-pointer cases. -/
def socket_async_receive (os : XferOracle) (buffer_is_null : Bool)
    (size : Nat) (received_count_is_null : Bool) : XferOut :=
  if buffer_is_null || received_count_is_null || size = 0 then
    { result := FAILURE, count := none, attempted := false }
  else if os.xfer_ret < 0 then
    if os.errno = EAGAIN ∨ os.errno = EWOULDBLOCK then
      { result := 0, count := some 0, attempted := true }
    else
      { result := FAILURE, count := none, attempted := true }
  else
    { result := 0, count := some os.xfer_ret.toNat, attempted := true }

/-- Embedding of `socket_async_destroy` (`src/pal/socket_async.c` lines
385-389): the only place in the module that calls `close`. -/
def socket_async_destroy (_sock : Int) : List Event :=
  [Event.closeCall]

/-- Spec-side characterization used for the amended C2: the address of the
last `AF_INET` entry of the `getaddrinfo` result list, or 0 when resolution
failed or no `AF_INET` entry exists. -/
def lastIPv4Spec (res : Option (List Addrinfo)) : Nat :=
  match res with
  | none => 0
  | some l =>
    match (l.filter fun e => e.ai_family = AF_INET).getLast? with
    | none => 0
    | some e => e.sin_addr

/-- Concrete oracle for the C1 counterexample: `socket()` yields descriptor
3, every `setsockopt` fails with -1, `bind`/`connect` would succeed. -/
def c1Oracle : OSOracle :=
  { socket_ret := 3, setsockopt_ret := fun _ => -1, bind_ret := 0,
    connect_ret := -1, sock_errno := EINPROGRESS }

theorem setsockoptKeys_append (a b : List Event) :
    setsockoptKeys (a ++ b) = setsockoptKeys a ++ setsockoptKeys b := by
  simp [setsockoptKeys, List.filterMap_append]

theorem closeCall_not_in_setoptPhase (o : OSOracle) (is_UDP : Bool)
    (options : Option SOCKET_ASYNC_OPTIONS) :
    Event.closeCall ∉ (setoptPhase o is_UDP options).2 := by
  unfold setoptPhase
  repeat' split
  all_goals simp [setsockoptKeys]

theorem foldl_ipv4_last (l : List Addrinfo) (init : Nat) :
    l.foldl (fun result ptr =>
        if ptr.ai_family = AF_INET then ptr.sin_addr else result) init =
      match (l.filter fun e => e.ai_family = AF_INET).getLast? with
      | none => init
      | some e => e.sin_addr := by
  induction l generalizing init with
  | nil => rfl
  | cons x xs ih =>
    by_cases hx : x.ai_family = AF_INET
    · rw [List.foldl_cons, if_pos hx, ih]
      have hf : (x :: xs).filter (fun e => decide (e.ai_family = AF_INET)) =
          x :: xs.filter (fun e => decide (e.ai_family = AF_INET)) := by
        simp [List.filter_cons, hx]
      rw [hf]
      cases hxs : xs.filter (fun e => decide (e.ai_family = AF_INET)) with
      | nil => simp
      | cons y ys =>
        rw [List.getLast?_cons_cons]
        cases hg : (y :: ys).getLast? with
        | none => exact absurd (List.getLast?_eq_none_iff.mp hg) (by simp)
        | some e => rfl
    · rw [List.foldl_cons, if_neg hx, ih]
      have hf : (x :: xs).filter (fun e => decide (e.ai_family = AF_INET)) =
          xs.filter (fun e => decide (e.ai_family = AF_INET)) := by
        simp [List.filter_cons, hx]
      rw [hf]

/-- C2 counterexample: on a `getaddrinfo` result holding two `AF_INET`
entries with addresses 1 and 2, `socket_async_get_ipv4` returns 2 (the
last entry), not 1 (the first), refuting "returns the first AF_INET
address found". -/
theorem get_ipv4_returns_last_not_first :
    socket_async_get_ipv4 (some [⟨AF_INET, 1⟩, ⟨AF_INET, 2⟩]) = 2 ∧
    socket_async_get_ipv4 (some [⟨AF_INET, 1⟩, ⟨AF_INET, 2⟩]) ≠ 1 := by
  decide

/-- C2 (amended): for every hostname-resolution outcome,
`socket_async_get_ipv4` returns the address of the LAST `AF_INET` entry
found among the possibly multiple `getaddrinfo` results (the `break`
leaves the `switch`, not the loop), or 0 if resolution fails or yields no
IPv4 address; being a total function into the address type, it never
signals an error to the caller. -/
theorem get_ipv4_is_last_af_inet (res : Option (List Addrinfo)) :
    socket_async_get_ipv4 res = lastIPv4Spec res := by
  cases res with
  | none => rfl
  | some l =>
    simpa [socket_async_get_ipv4, lastIPv4Spec] using foldl_ipv4_last l 0

/-- C5: `socket_async_send` with `size = 0` and non-null buffer and
`sent_count` pointers succeeds with `sent_count` set to 0 and never
invokes the underlying `send` primitive, regardless of socket state. -/
theorem send_zero_size_noop_success (os : XferOracle) :
    socket_async_send os false 0 false =
      { result := 0, count := some 0, attempted := false } := by
  simp [socket_async_send]

/-- C6: `socket_async_receive` with `size = 0` returns the hard-failure
code, regardless of socket state and of the other arguments, and the
failure code is distinct from success. -/
theorem receive_zero_size_fails (os : XferOracle)
    (buffer_is_null received_count_is_null : Bool) :
    (socket_async_receive os buffer_is_null 0 received_count_is_null).result
        = FAILURE ∧
    FAILURE ≠ 0 := by
  refine ⟨?_, by decide⟩
  simp [socket_async_receive]

/-- C4: when the underlying `send`/`recv` primitive reports a would-block
condition (`EAGAIN` or `EWOULDBLOCK`) on a call with valid arguments
(non-null pointers, `size > 0`), both `socket_async_send` and
`socket_async_receive` return success with the transferred-byte count set
to 0. -/
theorem send_receive_would_block_success (os : XferOracle) (size : Nat)
    (hsize : 0 < size) (hret : os.xfer_ret < 0)
    (herr : os.errno = EAGAIN ∨ os.errno = EWOULDBLOCK) :
    (socket_async_send os false size false).result = 0 ∧
    (socket_async_send os false size false).count = some 0 ∧
    (socket_async_receive os false size false).result = 0 ∧
    (socket_async_receive os false size false).count = some 0 := by
  have hs : size ≠ 0 := Nat.pos_iff_ne_zero.mp hsize
  simp [socket_async_send, socket_async_receive, hs, hret, herr]

/-- Witness for C4 at a concrete would-block outcome. -/
theorem send_receive_would_block_success_witness :
    (socket_async_send ⟨-1, 11⟩ false 4 false).result = 0 ∧
    (socket_async_send ⟨-1, 11⟩ false 4 false).count = some 0 ∧
    (socket_async_receive ⟨-1, 11⟩ false 4 false).result = 0 ∧
    (socket_async_receive ⟨-1, 11⟩ false 4 false).count = some 0 :=
  send_receive_would_block_success ⟨-1, 11⟩ 4 (by decide) (by decide)
    (by left; decide)

/-- C9: `socket_async_create` never mutates the caller-owned options
record: whatever the oracle outcomes, the options record at return is
exactly the one passed in. -/
theorem create_preserves_options (o : OSOracle) (serverIPv4 port : Nat)
    (is_UDP : Bool) (options : Option SOCKET_ASYNC_OPTIONS) :
    (socket_async_create o serverIPv4 port is_UDP options).optionsOut
      = options := by
  by_cases h0 : o.socket_ret < 0 <;>
  by_cases h1 : (setoptPhase o is_UDP options).1 = false <;>
  by_cases h2 : o.bind_ret ≠ 0 <;>
  by_cases h3 : o.connect_ret = -1 <;>
  by_cases h4 : o.sock_errno ≠ EINPROGRESS ∧ o.sock_errno ≠ 0 <;>
  simp [socket_async_create, h0, h1, h2, h3, h4]

/-- C3: for every call to `socket_async_is_create_complete` with a
non-null `is_complete` pointer whose zero-timeout `select` reports
(returns without error), exactly one of three outcomes holds: error
condition on the handle → failure; writable with no error → success with
`is_complete = true`; neither → success with `is_complete = false`. -/
theorem is_create_complete_trichotomy (sel : SelectOracle) (tv : Timeval)
    (hsel : 0 ≤ sel.select_ret) :
    (sel.errset = true →
      (socket_async_is_create_complete sel tv false).result = FAILURE ∧
      FAILURE ≠ 0) ∧
    (sel.errset = false → sel.writeset = true →
      (socket_async_is_create_complete sel tv false).result = 0 ∧
      (socket_async_is_create_complete sel tv false).is_complete
        = some true) ∧
    (sel.errset = false → sel.writeset = false →
      (socket_async_is_create_complete sel tv false).result = 0 ∧
      (socket_async_is_create_complete sel tv false).is_complete
        = some false) := by
  have h : ¬ sel.select_ret < 0 := not_lt.mpr hsel
  refine ⟨fun he => ⟨?_, by decide⟩, fun he hw => ?_, fun he hw => ?_⟩
  · simp [socket_async_is_create_complete, h, he]
  · simp [socket_async_is_create_complete, h, he, hw]
  · simp [socket_async_is_create_complete, h, he, hw]

/-- Witness for C3 at a concrete reporting `select` outcome. -/
theorem is_create_complete_trichotomy_witness :
    ((true : Bool) = true →
      (socket_async_is_create_complete ⟨1, true, true⟩ ⟨0, 0⟩ false).result
          = FAILURE ∧
      FAILURE ≠ 0) ∧
    ((true : Bool) = false → (true : Bool) = true →
      (socket_async_is_create_complete ⟨1, true, true⟩ ⟨0, 0⟩ false).result
          = 0 ∧
      (socket_async_is_create_complete ⟨1, true, true⟩ ⟨0, 0⟩
          false).is_complete = some true) ∧
    ((true : Bool) = false → (true : Bool) = false →
      (socket_async_is_create_complete ⟨1, true, true⟩ ⟨0, 0⟩ false).result
          = 0 ∧
      (socket_async_is_create_complete ⟨1, true, true⟩ ⟨0, 0⟩
          false).is_complete = some false) :=
  is_create_complete_trichotomy ⟨1, true, true⟩ ⟨0, 0⟩ (by decide)

/-- C8: the code assigns `tv.tv_sec` twice (lines 253-254) and never
assigns `tv.tv_usec`, so the timeout handed to `select` keeps the
uninitialized stack value in its microseconds field: with stack garbage
`{tv_sec := 5, tv_usec := 7}` the `select` timeout is `{0, 7}`, not the
all-zero timeout the claim requires. -/
theorem is_create_complete_timeout_usec_uninitialized :
    (socket_async_is_create_complete ⟨0, false, false⟩ ⟨5, 7⟩ false).tvUsed
        = some ⟨0, 7⟩ ∧
    (socket_async_is_create_complete ⟨0, false, false⟩ ⟨5, 7⟩ false).tvUsed
        ≠ some ⟨0, 0⟩ := by
  decide

/-- C10: when `connect` returns -1 after a successful option phase and
bind, creation succeeds (returns the descriptor) exactly when the socket
error is `EINPROGRESS` or 0 (the lwIP convention for an
already-completed connect); any other socket error yields the
invalid-handle sentinel. -/
theorem create_connect_errno_cases (o : OSOracle) (serverIPv4 port : Nat)
    (is_UDP : Bool) (options : Option SOCKET_ASYNC_OPTIONS)
    (hsock : 0 ≤ o.socket_ret)
    (hopt : (setoptPhase o is_UDP options).1 = true)
    (hbind : o.bind_ret = 0) (hconn : o.connect_ret = -1) :
    ((o.sock_errno = EINPROGRESS ∨ o.sock_errno = 0) →
      (socket_async_create o serverIPv4 port is_UDP options).result
        = o.socket_ret) ∧
    (o.sock_errno ≠ EINPROGRESS → o.sock_errno ≠ 0 →
      (socket_async_create o serverIPv4 port is_UDP options).result
        = SOCKET_ASYNC_INVALID_SOCKET) := by
  have h1 : ¬ o.socket_ret < 0 := not_lt.mpr hsock
  constructor
  · intro he
    rcases he with he | he <;>
      simp [socket_async_create, h1, hopt, hbind, hconn, he, EINPROGRESS]
  · intro h2 h3
    simp [socket_async_create, h1, hopt, hbind, hconn, h2, h3]

/-- Witness for C10 on a concrete oracle (UDP create, `connect` = -1,
socket error `EINPROGRESS`). -/
theorem create_connect_errno_cases_witness :
    ((OSOracle.mk 3 (fun _ => 0) 0 (-1) EINPROGRESS).sock_errno = EINPROGRESS ∨
      (OSOracle.mk 3 (fun _ => 0) 0 (-1) EINPROGRESS).sock_errno = 0 →
      (socket_async_create (OSOracle.mk 3 (fun _ => 0) 0 (-1) EINPROGRESS)
          1 80 true none).result
        = (OSOracle.mk 3 (fun _ => 0) 0 (-1) EINPROGRESS).socket_ret) ∧
    ((OSOracle.mk 3 (fun _ => 0) 0 (-1) EINPROGRESS).sock_errno ≠ EINPROGRESS →
      (OSOracle.mk 3 (fun _ => 0) 0 (-1) EINPROGRESS).sock_errno ≠ 0 →
      (socket_async_create (OSOracle.mk 3 (fun _ => 0) 0 (-1) EINPROGRESS)
          1 80 true none).result
        = SOCKET_ASYNC_INVALID_SOCKET) :=
  create_connect_errno_cases (OSOracle.mk 3 (fun _ => 0) 0 (-1) EINPROGRESS)
    1 80 true none (by decide) (by rfl) (by rfl) (by rfl)

theorem create_result_of_setopt_fail (o : OSOracle) (serverIPv4 port : Nat)
    (is_UDP : Bool) (options : Option SOCKET_ASYNC_OPTIONS)
    (hsock : 0 ≤ o.socket_ret)
    (h : (setoptPhase o is_UDP options).1 = false) :
    (socket_async_create o serverIPv4 port is_UDP options).result =
      SOCKET_ASYNC_INVALID_SOCKET := by
  have h0 : ¬ o.socket_ret < 0 := not_lt.mpr hsock
  simp [socket_async_create, h0, h]

theorem create_setsockoptKeys (o : OSOracle) (serverIPv4 port : Nat)
    (is_UDP : Bool) (options : Option SOCKET_ASYNC_OPTIONS)
    (hsock : 0 ≤ o.socket_ret) :
    setsockoptKeys
        (socket_async_create o serverIPv4 port is_UDP options).trace =
      setsockoptKeys (setoptPhase o is_UDP options).2 := by
  have h0 : ¬ o.socket_ret < 0 := not_lt.mpr hsock
  by_cases h1 : (setoptPhase o is_UDP options).1 = false <;>
  by_cases h2 : o.bind_ret ≠ 0 <;>
  by_cases h3 : o.connect_ret = -1 <;>
  by_cases h4 : o.sock_errno ≠ EINPROGRESS ∧ o.sock_errno ≠ 0 <;>
  simp [socket_async_create, h0, h1, h2, h3, h4, setsockoptKeys_append,
        setsockoptKeys]

/-- C1 counterexample: with descriptor 3 allocated and every `setsockopt`
failing, `socket_async_create` returns the invalid-handle sentinel but
performs no `close` call before returning — the descriptor is not
"closed internally", refuting the claim at this input. -/
theorem create_setsockopt_failure_not_closed :
    (socket_async_create c1Oracle 0 80 false (some ⟨0, 10, 5, 3⟩)).result =
      SOCKET_ASYNC_INVALID_SOCKET ∧
    Event.closeCall ∉
      (socket_async_create c1Oracle 0 80 false (some ⟨0, 10, 5, 3⟩)).trace := by
  decide

/-- C1 (amended): whenever `socket_async_create` fails after the
descriptor has been allocated — option application failure, bind
failure, or unexpected connect error — it returns the invalid-handle
sentinel (so the caller never receives the raw descriptor as a partial
handle); however the underlying descriptor is not closed internally
before returning: `close` is never among the calls performed, so the
descriptor is leaked. -/
theorem create_post_alloc_failure_sentinel_no_close (o : OSOracle)
    (serverIPv4 port : Nat) (is_UDP : Bool)
    (options : Option SOCKET_ASYNC_OPTIONS) (hsock : 0 ≤ o.socket_ret)
    (hfail : (setoptPhase o is_UDP options).1 = false ∨ o.bind_ret ≠ 0 ∨
      (o.connect_ret = -1 ∧ o.sock_errno ≠ EINPROGRESS ∧ o.sock_errno ≠ 0)) :
    (socket_async_create o serverIPv4 port is_UDP options).result =
      SOCKET_ASYNC_INVALID_SOCKET ∧
    Event.closeCall ∉
      (socket_async_create o serverIPv4 port is_UDP options).trace := by
  have hphase := closeCall_not_in_setoptPhase o is_UDP options
  have h0 : ¬ o.socket_ret < 0 := not_lt.mpr hsock
  rcases hfail with h1 | h2 | ⟨h3, h4⟩
  · simp [socket_async_create, h0, h1, hphase]
  · by_cases h1 : (setoptPhase o is_UDP options).1 = false <;>
      simp [socket_async_create, h0, h1, h2, hphase]
  · by_cases h1 : (setoptPhase o is_UDP options).1 = false <;>
    by_cases h2 : o.bind_ret ≠ 0 <;>
      simp [socket_async_create, h0, h1, h2, h3, h4, hphase]

/-- Witness for the amended C1 at a concrete bind failure: descriptor 3
allocated, `bind` fails, the result is the sentinel and no `close`
occurs. -/
theorem create_post_alloc_failure_sentinel_no_close_witness :
    (socket_async_create (OSOracle.mk 3 (fun _ => 0) (-1) 0 0) 1 80 true
        none).result = SOCKET_ASYNC_INVALID_SOCKET ∧
    Event.closeCall ∉
      (socket_async_create (OSOracle.mk 3 (fun _ => 0) (-1) 0 0) 1 80 true
        none).trace :=
  create_post_alloc_failure_sentinel_no_close
    (OSOracle.mk 3 (fun _ => 0) (-1) 0 0) 1 80 true none (by decide)
    (Or.inr (Or.inl (by decide)))

/-- C7: for a TCP create with a non-null options record whose
`keep_alive` is non-negative (and a successfully allocated descriptor),
the `setsockopt` calls performed are an in-order prefix of
enable → idle → interval → count; when all four succeed all four are
performed, and if any performed application fails the overall result is
the invalid-handle sentinel. -/
theorem create_keepalive_order_and_failure (o : OSOracle)
    (opts : SOCKET_ASYNC_OPTIONS) (serverIPv4 port : Nat)
    (hsock : 0 ≤ o.socket_ret) (hka : 0 ≤ opts.keep_alive) :
    setsockoptKeys
        (socket_async_create o serverIPv4 port false (some opts)).trace <+:
      [SockOptKey.soKeepAliveOn, SockOptKey.tcpKeepIdle,
       SockOptKey.tcpKeepIntvl, SockOptKey.tcpKeepCnt] ∧
    ((∀ k, o.setsockopt_ret k = 0) →
      setsockoptKeys
          (socket_async_create o serverIPv4 port false (some opts)).trace =
        [SockOptKey.soKeepAliveOn, SockOptKey.tcpKeepIdle,
         SockOptKey.tcpKeepIntvl, SockOptKey.tcpKeepCnt]) ∧
    ((∃ k ∈ setsockoptKeys
          (socket_async_create o serverIPv4 port false (some opts)).trace,
        o.setsockopt_ret k ≠ 0) →
      (socket_async_create o serverIPv4 port false (some opts)).result =
        SOCKET_ASYNC_INVALID_SOCKET) := by
  rw [create_setsockoptKeys o serverIPv4 port false (some opts) hsock]
  by_cases h1 : o.setsockopt_ret SockOptKey.soKeepAliveOn = 0
  · by_cases h2 : o.setsockopt_ret SockOptKey.tcpKeepIdle = 0
    · by_cases h3 : o.setsockopt_ret SockOptKey.tcpKeepIntvl = 0
      · by_cases h4 : o.setsockopt_ret SockOptKey.tcpKeepCnt = 0
        · have hp : setoptPhase o false (some opts) =
              (true,
               [.setsockoptCall .soKeepAliveOn, .setsockoptCall .tcpKeepIdle,
                .setsockoptCall .tcpKeepIntvl,
                .setsockoptCall .tcpKeepCnt]) := by
            simp [setoptPhase, hka, h1, h2, h3, h4]
          rw [hp]
          refine ⟨by decide, fun _ => by decide, ?_⟩
          rintro ⟨k, hk, hne⟩
          simp [setsockoptKeys] at hk
          rcases hk with rfl | rfl | rfl | rfl
          · exact absurd h1 hne
          · exact absurd h2 hne
          · exact absurd h3 hne
          · exact absurd h4 hne
        · have hp : setoptPhase o false (some opts) =
              (false,
               [.setsockoptCall .soKeepAliveOn, .setsockoptCall .tcpKeepIdle,
                .setsockoptCall .tcpKeepIntvl,
                .setsockoptCall .tcpKeepCnt]) := by
            simp [setoptPhase, hka, h1, h2, h3, h4]
          rw [hp]
          have hfail : (setoptPhase o false (some opts)).1 = false := by
            rw [hp]
          refine ⟨by decide, fun hall => absurd (hall _) h4, fun _ =>
            create_result_of_setopt_fail o serverIPv4 port false (some opts)
              hsock hfail⟩
      · have hp : setoptPhase o false (some opts) =
            (false,
             [.setsockoptCall .soKeepAliveOn, .setsockoptCall .tcpKeepIdle,
              .setsockoptCall .tcpKeepIntvl]) := by
          simp [setoptPhase, hka, h1, h2, h3]
        rw [hp]
        have hfail : (setoptPhase o false (some opts)).1 = false := by
          rw [hp]
        refine ⟨by decide, fun hall => absurd (hall _) h3, fun _ =>
          create_result_of_setopt_fail o serverIPv4 port false (some opts)
            hsock hfail⟩
    · have hp : setoptPhase o false (some opts) =
          (false,
           [.setsockoptCall .soKeepAliveOn, .setsockoptCall .tcpKeepIdle]) := by
        simp [setoptPhase, hka, h1, h2]
      rw [hp]
      have hfail : (setoptPhase o false (some opts)).1 = false := by
        rw [hp]
      refine ⟨by decide, fun hall => absurd (hall _) h2, fun _ =>
        create_result_of_setopt_fail o serverIPv4 port false (some opts)
          hsock hfail⟩
  · have hp : setoptPhase o false (some opts) =
        (false, [.setsockoptCall .soKeepAliveOn]) := by
      simp [setoptPhase, hka, h1]
    rw [hp]
    have hfail : (setoptPhase o false (some opts)).1 = false := by
      rw [hp]
    refine ⟨by decide, fun hall => absurd (hall _) h1, fun _ =>
      create_result_of_setopt_fail o serverIPv4 port false (some opts)
        hsock hfail⟩

/-- Witness for C7 on a concrete oracle where all four applications
succeed. -/
theorem create_keepalive_order_and_failure_witness :
    setsockoptKeys
        (socket_async_create (OSOracle.mk 3 (fun _ => 0) 0 (-1) 115) 1 80
          false (some ⟨0, 10, 5, 3⟩)).trace <+:
      [SockOptKey.soKeepAliveOn, SockOptKey.tcpKeepIdle,
       SockOptKey.tcpKeepIntvl, SockOptKey.tcpKeepCnt] ∧
    ((∀ k, (OSOracle.mk 3 (fun _ => 0) 0 (-1) 115).setsockopt_ret k = 0) →
      setsockoptKeys
          (socket_async_create (OSOracle.mk 3 (fun _ => 0) 0 (-1) 115) 1 80
            false (some ⟨0, 10, 5, 3⟩)).trace =
        [SockOptKey.soKeepAliveOn, SockOptKey.tcpKeepIdle,
         SockOptKey.tcpKeepIntvl, SockOptKey.tcpKeepCnt]) ∧
    ((∃ k ∈ setsockoptKeys
          (socket_async_create (OSOracle.mk 3 (fun _ => 0) 0 (-1) 115) 1 80
            false (some ⟨0, 10, 5, 3⟩)).trace,
        (OSOracle.mk 3 (fun _ => 0) 0 (-1) 115).setsockopt_ret k ≠ 0) →
      (socket_async_create (OSOracle.mk 3 (fun _ => 0) 0 (-1) 115) 1 80
          false (some ⟨0, 10, 5, 3⟩)).result =
        SOCKET_ASYNC_INVALID_SOCKET) :=
  create_keepalive_order_and_failure (OSOracle.mk 3 (fun _ => 0) 0 (-1) 115)
    ⟨0, 10, 5, 3⟩ 1 80 (by decide) (by decide)

end SocketAsync
